import Mathlib

/-!
Verification of the yt-dlp-tk widget/signal layer.

This file gives a shallow embedding of the signal dispatcher
(`src/yt_dlp_tk/signals.py`), the resource-overlay and temporary-state
helpers (`src/yt_dlp_tk/interface/utils.py`), the composite widgets
(`src/yt_dlp_tk/interface/{text,entry,tree}.py`) and the status bar
(`src/yt_dlp_tk/view.py`), and proves or refutes the specification
claims about them.

Modelling conventions:
* Python runtime values that flow through these modules (strings,
  booleans, integers) are embedded as the inductive type `V`.
* Python `dict`s are embedded as association lists (`Dict`) with
  first-occurrence lookup and in-place overwrite, matching `dict`
  semantics for duplicate-free key lists (the only ones Python can
  produce).
* Raising an exception is embedded as returning `Except.error` /
  `Option.none`.
* Functions and observer objects are compared by identity in Python
  (`list.remove` on a tuple containing a function); identity is
  embedded as a `Nat` tag.
-/

namespace YtDlpTk

/-- Embedded Python value (string / bool / int), the value domain that
flows through the widget option tables and signal arguments. -/
inductive V where
  | s (x : String)
  | b (x : Bool)
  | i (x : Int)
deriving DecidableEq, Repr

/-- Python truthiness for the embedded values (`if text:` on a string is
true iff the string is nonempty, etc.). -/
def V.truthy : V → Bool
  | .s x => !x.isEmpty
  | .b x => x
  | .i x => decide (x ≠ 0)

/-- A Python `dict[str, Any]` as an association list: lookup returns the
first occurrence, overwrite replaces in place (dict insertion-order
semantics for duplicate-free key lists). -/
structure Dict where
  entries : List (String × V)
deriving DecidableEq, Repr

/-- `d[key]` as an `Option` (`none` models the `KeyError` raised by a
Python dict lookup on an absent key). -/
def Dict.get? (d : Dict) (key : String) : Option V :=
  go d.entries
where
  go : List (String × V) → Option V
    | [] => none
    | (k, v) :: rest => if k = key then some v else go rest

/-- `key in d`. -/
def Dict.has (d : Dict) (key : String) : Bool :=
  (d.get? key).isSome

/-- `d[key] = v`: overwrite in place when the key exists, append
otherwise. -/
def Dict.set (d : Dict) (key : String) (v : V) : Dict :=
  ⟨go d.entries⟩
where
  go : List (String × V) → List (String × V)
    | [] => [(key, v)]
    | (k, w) :: rest => if k = key then (k, v) :: rest else (k, w) :: go rest

/-- `d.update(other)`: write every entry of `other` into `d`, in order. -/
def Dict.update (d other : Dict) : Dict :=
  other.entries.foldl (fun acc kv => acc.set kv.1 kv.2) d

/-- Python `==` on dicts: equality as key/value mappings (insertion order
is irrelevant). -/
def Dict.eqv (d e : Dict) : Bool :=
  d.entries.all (fun kv => decide (d.get? kv.1 = e.get? kv.1)) &&
  e.entries.all (fun kv => decide (d.get? kv.1 = e.get? kv.1))

theorem Dict.eqv_refl (d : Dict) : d.eqv d = true := by
  simp [Dict.eqv, List.all_eq_true]

theorem Dict.get?_set_self (d : Dict) (key : String) (v : V) :
    (d.set key v).get? key = some v := by
  show Dict.get?.go key (Dict.set.go key v d.entries) = some v
  induction d.entries with
  | nil => simp [Dict.get?.go, Dict.set.go]
  | cons kv rest ih =>
      obtain ⟨k, w⟩ := kv
      by_cases h : k = key <;> simp [Dict.get?.go, Dict.set.go, h, ih]

theorem Dict.get?_set_ne (d : Dict) (key key' : String) (v : V)
    (h : key' ≠ key) : (d.set key v).get? key' = d.get? key' := by
  show Dict.get?.go key' (Dict.set.go key v d.entries)
     = Dict.get?.go key' d.entries
  induction d.entries with
  | nil => simp [Dict.get?.go, Dict.set.go, h.symm]
  | cons kv rest ih =>
      obtain ⟨k, w⟩ := kv
      by_cases hk : k = key
      · subst hk
        simp [Dict.get?.go, Dict.set.go, h.symm]
      · simp [Dict.get?.go, Dict.set.go, hk, ih]

theorem Dict.has_iff_get?_isSome (d : Dict) (key : String) :
    d.has key = (d.get? key).isSome := rfl

/-!
## `_ResourceManager` (`src/yt_dlp_tk/interface/utils.py`, lines 14-27)

The Resource Overlay: a plain per-instance dict with `__getitem__`
(raising `KeyError` on an absent key), `__setitem__` (unconditional
overwrite) and `__contains__`.
-/

/-- `_ResourceManager.__slots__ = ('resources',)`. -/
structure ResourceManager where
  resources : Dict
deriving DecidableEq, Repr

/-- `_ResourceManager.__init__(self, **kw)`. -/
def ResourceManager.init (kw : Dict) : ResourceManager := ⟨kw⟩

/-- `__getitem__`: `self.resources[key]`; `none` models the `KeyError`
raised on an absent key. -/
def ResourceManager.getitem (m : ResourceManager) (key : String) : Option V :=
  m.resources.get? key

/-- `__setitem__`: `self.resources[key] = value`. -/
def ResourceManager.setitem (m : ResourceManager) (key : String) (v : V) :
    ResourceManager :=
  ⟨m.resources.set key v⟩

/-- `__contains__`: `self.resources.__contains__(key)`. -/
def ResourceManager.containsKey (m : ResourceManager) (key : String) : Bool :=
  m.resources.has key

/-- C8. Resource Overlay lookup contract: `get` on an absent key fails
with a missing-key error (never a default), `get` on a present key
returns the most recently stored value (`set` overwrites that key and
leaves every other key untouched), and `has` is true exactly when the
key is present. -/
theorem resource_manager_lookup_contract :
    (∀ (m : ResourceManager) (key : String),
        m.containsKey key = false → m.getitem key = none) ∧
    (∀ (m : ResourceManager) (key : String) (v : V),
        (m.setitem key v).getitem key = some v) ∧
    (∀ (m : ResourceManager) (key key' : String) (v : V),
        key' ≠ key → (m.setitem key v).getitem key' = m.getitem key') ∧
    (∀ (m : ResourceManager) (key : String),
        m.containsKey key = true ↔ ∃ v, m.getitem key = some v) := by
  refine ⟨?_, ?_, ?_, ?_⟩
  · intro m key h
    have h' : (m.resources.get? key).isSome = false := h
    exact Option.not_isSome_iff_eq_none.mp (by simp [ResourceManager.getitem, h'])
  · intro m key v
    exact Dict.get?_set_self m.resources key v
  · intro m key key' v h
    exact Dict.get?_set_ne m.resources key key' v h
  · intro m key
    rw [ResourceManager.containsKey, Dict.has_iff_get?_isSome]
    exact Option.isSome_iff_exists

/-- Witness for C8 at a concrete overlay: a one-entry store built by
`set`, queried at the present and at an absent key. -/
theorem resource_manager_lookup_contract_witness :
    ((ResourceManager.init ⟨[]⟩).containsKey "scrolly" = false) ∧
    ((ResourceManager.init ⟨[]⟩).getitem "scrolly" = none) ∧
    (((ResourceManager.init ⟨[]⟩).setitem "scrolly" (V.b true)).getitem
        "scrolly" = some (V.b true)) ∧
    (("text" : String) ≠ "scrolly") ∧
    (((ResourceManager.init ⟨[]⟩).setitem "scrolly" (V.b true)).getitem
        "text" = (ResourceManager.init ⟨[]⟩).getitem "text") ∧
    (((ResourceManager.init ⟨[("text", V.s "hi")]⟩).containsKey "text" = true) ↔
      ∃ v, (ResourceManager.init ⟨[("text", V.s "hi")]⟩).getitem "text" = some v) :=
  ⟨rfl,
   resource_manager_lookup_contract.1 (ResourceManager.init ⟨[]⟩) "scrolly" rfl,
   resource_manager_lookup_contract.2.1 (ResourceManager.init ⟨[]⟩) "scrolly"
     (V.b true),
   by decide,
   resource_manager_lookup_contract.2.2.1 (ResourceManager.init ⟨[]⟩)
     "scrolly" "text" (V.b true) (by decide),
   resource_manager_lookup_contract.2.2.2
     (ResourceManager.init ⟨[("text", V.s "hi")]⟩) "text"⟩

/-!
## Signal dispatcher (`src/yt_dlp_tk/signals.py`)

A subscriber is either an observer object (dispatched through its
multiplexed `on_notify` method) or a "signal bind": a callback stored
together with bound positional and keyword arguments
(`_form_signal_bind`, lines 63-65).  Functions and observer objects are
identified by `Nat` tags (Python compares them by identity in
`list.remove`); bound argument tuples compare elementwise and bound
kwargs dicts compare as mappings, as Python `==` does.
-/

/-- One entry of `signal.observers`: an observer object or a
`(fn, args, kw)` signal bind. -/
inductive Subscriber where
  | obs (id : Nat)
  | bind (fn : Nat) (args : List V) (kw : Dict)
deriving DecidableEq, Repr

/-- Python `==` between stored subscribers, as evaluated by
`list.remove`: identity on observer objects and on callback functions,
structural equality on bound argument tuples, mapping equality on bound
kwargs dicts. -/
def Subscriber.pyEq : Subscriber → Subscriber → Bool
  | .obs a, .obs b => decide (a = b)
  | .bind f a k, .bind g c l => decide (f = g) && decide (a = c) && k.eqv l
  | _, _ => false

theorem Subscriber.pyEq_refl (x : Subscriber) : x.pyEq x = true := by
  cases x <;> simp [Subscriber.pyEq, Dict.eqv_refl]

/-- The mutable state of a `signal` instance (`__slots__ = ('name',
'observers', 'observer_count', 'obj')`; the owner back-reference plays
no role in the claims and is omitted). -/
structure Signal where
  name : String
  observers : List Subscriber
  observer_count : Int
deriving DecidableEq, Repr

/-- `signal.__init__`: empty subscriber list, zero count. -/
def Signal.init (name : String) : Signal :=
  ⟨name, [], 0⟩

/-- `signal.connect` (lines 77-85): append the subscriber (already
formed into a bind when the argument is callable) and increment
`observer_count`. -/
def Signal.connect (s : Signal) (sub : Subscriber) : Signal :=
  { s with observers := s.observers ++ [sub],
           observer_count := s.observer_count + 1 }

/-- `list.remove`: drop the first element equal to the probe, `none`
models the `ValueError` raised when no element matches. -/
def removeFirst (p : Subscriber → Bool) : List Subscriber → Option (List Subscriber)
  | [] => none
  | x :: xs => if p x then some xs else (removeFirst p xs).map (x :: ·)

/-- `signal.disconnect` (lines 97-105): re-form the bind and
`self.observers.remove` it, then decrement `observer_count`; `none`
models the `ValueError` escaping before any mutation. -/
def Signal.disconnect (s : Signal) (sub : Subscriber) : Option Signal :=
  (removeFirst (fun x => sub.pyEq x) s.observers).map fun l =>
    { s with observers := l, observer_count := s.observer_count - 1 }

/-- One delivery performed during an emission: a callback invocation
`fn(self.obj, *args, **kw)` or an observer dispatch
`obv.on_notify(self.name, self.obj, *args, **kw)` (the owner argument
carries no data relevant to the claims and is omitted). -/
inductive Delivery where
  | call (fn : Nat) (args : List V) (kw : Dict)
  | notify (id : Nat) (sig : String) (args : List V) (kw : Dict)
deriving DecidableEq, Repr

/-- The loop body of `signal.emit` (lines 111-125).  Note that the
source rebinds the loop-carried `args` (`args = args + sargs`) and
mutates `kw` in place (`kw.update(skw)`) when it meets a signal bind,
so the accumulated values are also what every later subscriber
receives. -/
def emitLoop (name : String) :
    List Subscriber → List V → Dict → List Delivery
  | [], _, _ => []
  | .bind fn sargs skw :: rest, args, kw =>
      let args' := args ++ sargs
      let kw' := kw.update skw
      .call fn args' kw' :: emitLoop name rest args' kw'
  | .obs id :: rest, args, kw =>
      .notify id name args kw :: emitLoop name rest args kw

/-- `signal.emit`: synchronous in-order delivery to every subscriber.
The method reads `self.observers` and mutates no attribute of the
signal, so it returns only the delivery list. -/
def Signal.emit (s : Signal) (args : List V) (kw : Dict) : List Delivery :=
  emitLoop s.name s.observers args kw

/-- C2 (code evaluation at the failing input).  A signal with two
callback subscribers, the first bound to one extra positional argument
(`9`) and the second bound to none, is emitted with two positional
arguments.  The claim requires the second subscriber to receive exactly
`[1, 2]`; the code delivers `[1, 2, 9]` to it, because `emit` rebinds
the emission argument tuple with the first subscriber's bound
arguments. -/
theorem emit_accumulates_bound_args_across_subscribers :
    Signal.emit ⟨"sig", [.bind 0 [V.i 9] ⟨[]⟩, .bind 1 [] ⟨[]⟩], 2⟩
        [V.i 1, V.i 2] ⟨[]⟩
      = [.call 0 [V.i 1, V.i 2, V.i 9] ⟨[]⟩,
         .call 1 [V.i 1, V.i 2, V.i 9] ⟨[]⟩] ∧
    [V.i 1, V.i 2, V.i 9] ≠ [V.i 1, V.i 2] ++ ([] : List V) :=
  ⟨rfl, by decide⟩

theorem removeFirst_of_forall_false {p : Subscriber → Bool}
    {l : List Subscriber} (h : ∀ x ∈ l, p x = false) :
    removeFirst p l = none := by
  induction l with
  | nil => rfl
  | cons x xs ih =>
      have hx := h x (by simp)
      simp [removeFirst, hx, ih fun y hy => h y (by simp [hy])]

theorem removeFirst_append_self (l : List Subscriber) (sub : Subscriber) :
    ∃ l', removeFirst (fun x => sub.pyEq x) (l ++ [sub]) = some l' ∧
      l'.length = l.length := by
  induction l with
  | nil => exact ⟨[], by simp [removeFirst, Subscriber.pyEq_refl], rfl⟩
  | cons x xs ih =>
      by_cases hx : sub.pyEq x
      · exact ⟨xs ++ [sub], by simp [removeFirst, hx], by simp⟩
      · obtain ⟨l', hl', hlen⟩ := ih
        exact ⟨x :: l', by simp [removeFirst, hx, hl'], by simp [hlen]⟩

/-- C5. Connect/disconnect round-trip and strict disconnect: connecting
a `(callback, boundArgs, boundKwargs)` triple and then disconnecting
the same triple succeeds and restores the subscriber list to its
pre-connect length, while disconnecting a subscriber that matches no
current entry returns the `ValueError` (modelled as `none`) instead of
succeeding. -/
theorem connect_disconnect_roundtrip_strict :
    (∀ (s : Signal) (sub : Subscriber),
        ∃ s', (s.connect sub).disconnect sub = some s' ∧
          s'.observers.length = s.observers.length) ∧
    (∀ (s : Signal) (sub : Subscriber),
        (∀ x ∈ s.observers, sub.pyEq x = false) →
        s.disconnect sub = none) := by
  constructor
  · intro s sub
    obtain ⟨l', hl', hlen⟩ := removeFirst_append_self s.observers sub
    refine ⟨⟨s.name, l', s.observer_count + 1 - 1⟩, ?_, hlen⟩
    simp [Signal.disconnect, Signal.connect, hl']
  · intro s sub h
    simp [Signal.disconnect, removeFirst_of_forall_false h]

/-- Witness for C5: a signal holding one observer-object subscriber;
connecting and disconnecting a concrete callback bind restores length
1, and disconnecting a bind that matches nothing errors out. -/
theorem connect_disconnect_roundtrip_strict_witness :
    (∃ s', ((Signal.init "sig").connect
        (.bind 3 [V.i 7] ⟨[]⟩)).disconnect (.bind 3 [V.i 7] ⟨[]⟩) = some s' ∧
        s'.observers.length = (Signal.init "sig").observers.length) ∧
    (Signal.init "sig").disconnect (.bind 3 [V.i 7] ⟨[]⟩) = none :=
  ⟨connect_disconnect_roundtrip_strict.1 (Signal.init "sig")
     (.bind 3 [V.i 7] ⟨[]⟩),
   connect_disconnect_roundtrip_strict.2 (Signal.init "sig")
     (.bind 3 [V.i 7] ⟨[]⟩) (by simp [Signal.init])⟩

/-- The operations a client can perform on one signal instance. -/
inductive SigOp where
  | connect (sub : Subscriber)
  | disconnect (sub : Subscriber)
  | emit (args : List V) (kw : Dict)
deriving Repr

/-- Effect of one operation on the signal state.  A `disconnect` whose
`list.remove` raises leaves the state exactly as it was (the exception
escapes before `observer_count` is touched); `emit` reads the
subscriber list and writes no attribute. -/
def SigOp.step (s : Signal) : SigOp → Signal
  | .connect sub => s.connect sub
  | .disconnect sub => (s.disconnect sub).getD s
  | .emit _ _ => s

/-- Run a sequence of operations against a signal. -/
def Signal.run (s : Signal) (ops : List SigOp) : Signal :=
  ops.foldl SigOp.step s

theorem removeFirst_some_length {p : Subscriber → Bool}
    {l l' : List Subscriber} (h : removeFirst p l = some l') :
    l.length = l'.length + 1 := by
  induction l generalizing l' with
  | nil => simp [removeFirst] at h
  | cons x xs ih =>
      by_cases hx : p x
      · simp [removeFirst, hx] at h
        simp [← h]
      · simp [removeFirst, hx] at h
        obtain ⟨ys, hys, rfl⟩ := h
        simp [ih hys]

theorem step_preserves_count {s : Signal}
    (h : s.observer_count = s.observers.length) (op : SigOp) :
    (SigOp.step s op).observer_count = (SigOp.step s op).observers.length := by
  cases op with
  | connect sub => simp [SigOp.step, Signal.connect, h]
  | emit args kw => exact h
  | disconnect sub =>
      cases hd : s.disconnect sub with
      | none => simpa [SigOp.step, hd] using h
      | some s' =>
          simp only [SigOp.step, hd, Option.getD_some]
          obtain ⟨l', hl', rfl⟩ :
              ∃ l', removeFirst (fun x => Subscriber.pyEq sub x) s.observers
                  = some l' ∧
                { s with observers := l',
                         observer_count := s.observer_count - 1 } = s' := by
            unfold Signal.disconnect at hd
            cases hr : removeFirst (fun x => Subscriber.pyEq sub x) s.observers with
            | none => simp [hr] at hd
            | some l' => exact ⟨l', rfl, by simpa [hr] using hd⟩
          have hlen := removeFirst_some_length hl'
          simp only [h, hlen] at *
          push_cast
          ring

/-- C10. Subscriber-count invariant with atomic failure: starting from a
fresh signal, after any sequence of connect/disconnect/emit operations
`observer_count` equals the length of the subscriber list; a
disconnect that finds no exact match leaves the state unchanged (the
error is raised before any mutation), and emit changes nothing. -/
theorem observer_count_matches_length :
    (∀ (name : String) (ops : List SigOp),
        ((Signal.init name).run ops).observer_count
          = ((Signal.init name).run ops).observers.length) ∧
    (∀ (s : Signal) (sub : Subscriber), s.disconnect sub = none →
        SigOp.step s (.disconnect sub) = s) ∧
    (∀ (s : Signal) (args : List V) (kw : Dict),
        SigOp.step s (.emit args kw) = s) := by
  refine ⟨?_, ?_, ?_⟩
  · intro name ops
    suffices h : ∀ (s : Signal), s.observer_count = s.observers.length →
        (s.run ops).observer_count = (s.run ops).observers.length from
      h (Signal.init name) rfl
    induction ops with
    | nil => intro s hs; exact hs
    | cons op rest ih =>
        intro s hs
        exact ih (SigOp.step s op) (step_preserves_count hs op)
  · intro s sub h
    simp [SigOp.step, h]
  · intro _ _ _
    rfl

/-- Witness for C10 at a concrete operation sequence: connect two
subscribers, emit, fail to disconnect an absent one, then disconnect a
present one. -/
theorem observer_count_matches_length_witness :
    (((Signal.init "sig").run
        [.connect (.obs 0), .connect (.bind 1 [V.i 4] ⟨[]⟩),
         .emit [V.s "x"] ⟨[]⟩, .disconnect (.obs 9),
         .disconnect (.obs 0)]).observer_count
      = ((Signal.init "sig").run
        [.connect (.obs 0), .connect (.bind 1 [V.i 4] ⟨[]⟩),
         .emit [V.s "x"] ⟨[]⟩, .disconnect (.obs 9),
         .disconnect (.obs 0)]).observers.length) ∧
    (SigOp.step (Signal.init "z") (.disconnect (.obs 5)) = Signal.init "z") ∧
    (SigOp.step (Signal.init "z") (.emit [] ⟨[]⟩) = Signal.init "z") :=
  ⟨observer_count_matches_length.1 "sig" _,
   observer_count_matches_length.2.1 (Signal.init "z") (.obs 5) rfl,
   observer_count_matches_length.2.2 (Signal.init "z") [] ⟨[]⟩⟩

/-!
## `InState` (`src/yt_dlp_tk/interface/utils.py`, lines 177-204)

The Temporary-State Guard.  `_StateSpec` is either one of the literal
strings `'normal'` / `'disabled'` or a tuple of state flags.
-/

/-- A `_StateSpec` value. -/
inductive StateSpec where
  | normal
  | disabled
  | flags (l : List String)
deriving DecidableEq, Repr

/-- The flag transformation the constructor applies to each element of
a tuple state spec: `f"!{st}" if not st.startswith("!") else st[1:]`. -/
def invertFlag (st : String) : String :=
  if !st.startsWith "!" then "!" ++ st else st.drop 1

/-- The guard object: `__init__` stores the target spec and computes
`old_state` from it — `'normal'` when the target is `'disabled'` and
vice versa, and the flag-wise inversion for tuple specs.  Nothing is
read from the owner widget. -/
structure InState where
  state_spec : StateSpec
  old_state : StateSpec
deriving DecidableEq, Repr

/-- `InState.__init__(owner, state_spec)` (the owner reference only
matters at enter/exit time and is supplied there). -/
def InState.init (state_spec : StateSpec) : InState :=
  { state_spec := state_spec,
    old_state :=
      match state_spec with
      | .normal => .disabled
      | .disabled => .normal
      | .flags fs => .flags (fs.map invertFlag) }

/-- The owner's `state(spec)` setter as seen through its own `state()`
getter: the widgets guarded here (`ExText.state`, lines 164-174 of
`interface/text.py`) store the applied spec and report it back
verbatim, so the observable widget state is the last spec applied. -/
def widgetApplyState (_current : StateSpec) (spec : StateSpec) : StateSpec :=
  spec

/-- `InState.__enter__`: `self.owner.state(self.state_spec)`. -/
def InState.enter (g : InState) (w : StateSpec) : StateSpec :=
  widgetApplyState w g.state_spec

/-- `InState.__exit__` (taken on success and on the error path alike):
`self.owner.state(self.old_state)`. -/
def InState.exitScope (g : InState) (w : StateSpec) : StateSpec :=
  widgetApplyState w g.old_state

/-- `with InState(owner, spec): body` on a widget whose state at entry
is `q`; `body` is an arbitrary state mutation performed inside the
scope. -/
def inStateScope (q : StateSpec) (spec : StateSpec)
    (body : StateSpec → StateSpec) : StateSpec :=
  let g := InState.init spec
  g.exitScope (body (g.enter q))

/-- C1 (code evaluation at the failing input).  Entering the guard with
target state `'disabled'` on a widget already in state `'disabled'` and
exiting (with a body that touches nothing) leaves the widget in
`'normal'`: the guard restores the inversion of the target spec, not a
snapshot of the entry state `Q = 'disabled'`. -/
theorem InState_exit_applies_inverted_spec :
    inStateScope .disabled .disabled id = .normal ∧
    StateSpec.normal ≠ .disabled ∧
    (InState.init .disabled).old_state = .normal := by
  refine ⟨rfl, by decide, rfl⟩

/-!
## `Statusbar` (`src/yt_dlp_tk/view.py`, lines 17-61)

The status bar schedules a `tk.after` timer to clear a transient
message.  The event loop is modelled explicitly: `after` returns a
fresh identifier and adds it to the pending-timer list, `after_cancel`
removes it, and firing a pending timer removes it and runs
`__on_timer_cleared`.  The sentinel "no timer" value is the empty
string, as in the source.
-/

/-- State of one `Statusbar` plus the event-loop timers it owns. -/
structure Statusbar where
  labelText : String
  timer : String
  pending : List String
  counter : Nat
deriving DecidableEq, Repr

/-- `Statusbar.__init__`: empty label, `self.timer = ""`. -/
def Statusbar.init : Statusbar :=
  ⟨"", "", [], 0⟩

/-- `self.after(ms, callback)`: schedule a fresh timer on the event
loop and return its identifier. -/
def Statusbar.after (sb : Statusbar) : Statusbar × String :=
  let id := "after#" ++ toString sb.counter
  ({ sb with pending := sb.pending ++ [id], counter := sb.counter + 1 }, id)

/-- `self.after_cancel(id)`: deschedule the timer. -/
def Statusbar.afterCancel (sb : Statusbar) (id : String) : Statusbar :=
  { sb with pending := sb.pending.erase id }

/-- `Statusbar.clear` (lines 46-56): blank the label; if a timer is
active, cancel it and reset the identifier to the sentinel `""`. -/
def Statusbar.clear (sb : Statusbar) : Statusbar :=
  let sb := { sb with labelText := "" }
  if sb.timer ≠ "" then
    { sb.afterCancel sb.timer with timer := "" }
  else
    sb

/-- `Statusbar.set` (lines 27-44): `self.clear()` first (which also
stops any active timer), set the label text, and when `timer` is a
number greater than zero schedule a fresh timer and remember its
identifier. -/
def Statusbar.setMsg (sb : Statusbar) (text : String) (timer : Option ℚ) :
    Statusbar :=
  let sb := sb.clear
  let sb := { sb with labelText := text }
  match timer with
  | some t =>
      if t > 0 then
        let (sb, id) := sb.after
        { sb with timer := id }
      else sb
  | none => sb

/-- `Statusbar.__on_timer_cleared` (lines 58-61), run by the event loop
when the scheduled timer fires: the loop drops the fired identifier
from its pending list, the callback invalidates `self.timer` and calls
`self.clear()`. -/
def Statusbar.onTimerCleared (sb : Statusbar) (id : String) : Statusbar :=
  let sb := { sb with pending := sb.pending.erase id }
  Statusbar.clear { sb with timer := "" }

/-- Events that can reach the status bar: the two public methods plus a
timer firing on the event loop (which only happens for a pending
identifier). -/
inductive SbOp where
  | set (text : String) (timer : Option ℚ)
  | clear
  | fire (id : String)

/-- Step function of the status-bar event system. -/
def SbOp.step (sb : Statusbar) : SbOp → Statusbar
  | .set text timer => sb.setMsg text timer
  | .clear => sb.clear
  | .fire id => if id ∈ sb.pending then sb.onTimerCleared id else sb

/-- Run a sequence of status-bar events. -/
def Statusbar.run (sb : Statusbar) (ops : List SbOp) : Statusbar :=
  ops.foldl SbOp.step sb

/-- The pending timers are exactly the one named by `self.timer`, when
that field is not the sentinel. -/
def Statusbar.timerInv (sb : Statusbar) : Prop :=
  sb.pending = if sb.timer = "" then [] else [sb.timer]

theorem clear_preserves_timerInv {sb : Statusbar} (h : sb.timerInv) :
    (sb.clear).timerInv ∧ (sb.clear).timer = "" := by
  unfold Statusbar.timerInv at h ⊢
  unfold Statusbar.clear Statusbar.afterCancel
  by_cases ht : sb.timer = "" <;>
    simp_all [List.erase_cons]

theorem afterId_ne_empty (n : Nat) : ("after#" ++ toString n) ≠ "" := by
  intro h
  have h2 : ("after#" ++ toString n).length = 0 := by rw [h]; rfl
  rw [String.length_append] at h2
  have h6 : "after#".length = 6 := rfl
  omega

theorem setMsg_preserves_timerInv {sb : Statusbar} (h : sb.timerInv)
    (text : String) (timer : Option ℚ) :
    (sb.setMsg text timer).timerInv := by
  have hc := (clear_preserves_timerInv h).1
  have hct := (clear_preserves_timerInv h).2
  unfold Statusbar.timerInv at hc ⊢
  rw [hct, if_pos rfl] at hc
  unfold Statusbar.setMsg Statusbar.after
  cases timer with
  | none => simp [hct, hc]
  | some t =>
      by_cases hpos : (0 : ℚ) < t
      · simp [hpos, hc, afterId_ne_empty]
      · simp [hpos, hct, hc]

theorem step_preserves_timerInv {sb : Statusbar} (h : sb.timerInv)
    (op : SbOp) : (SbOp.step sb op).timerInv := by
  cases op with
  | set text timer => exact setMsg_preserves_timerInv h text timer
  | clear => exact (clear_preserves_timerInv h).1
  | fire id =>
      unfold SbOp.step
      by_cases hmem : id ∈ sb.pending
      · unfold Statusbar.timerInv at h
        by_cases ht : sb.timer = ""
        · simp [h, ht] at hmem
        · have hid : id = sb.timer := by
            rw [h, if_neg ht] at hmem
            simpa using hmem
          have hcl := @clear_preserves_timerInv
            { sb with pending := sb.pending.erase id, timer := "" }
            (by simp [Statusbar.timerInv, h, ht, hid, List.erase_cons])
          simpa [hmem, Statusbar.onTimerCleared] using hcl.1
      · simpa [hmem] using h

/-- C9. Status-message timer discipline: `clear` cancels the pending
timer when one is active and resets the field to the sentinel, is a
no-op on an inactive timer so that repeated `clear`s equal a single
`clear`, and `set` always cancels the active timer before scheduling a
new one — after any event sequence from a fresh status bar at most one
timer is pending. -/
theorem statusbar_timer_cancellation :
    (∀ sb : Statusbar, sb.timer ≠ "" →
        (sb.clear).timer = "" ∧
        (sb.clear).pending = sb.pending.erase sb.timer) ∧
    (∀ sb : Statusbar, sb.timer = "" → (sb.clear).pending = sb.pending) ∧
    (∀ sb : Statusbar, sb.clear.clear = sb.clear) ∧
    (∀ sb : Statusbar, ∀ text timer,
        (sb.setMsg text timer).pending
          = ((sb.clear).setMsg text timer).pending) ∧
    (∀ ops : List SbOp, ((Statusbar.init).run ops).pending.length ≤ 1) := by
  refine ⟨?_, ?_, ?_, ?_, ?_⟩
  · intro sb ht
    constructor <;> simp [Statusbar.clear, Statusbar.afterCancel, ht]
  · intro sb ht
    simp [Statusbar.clear, ht]
  · intro sb
    unfold Statusbar.clear Statusbar.afterCancel
    by_cases ht : sb.timer = "" <;> simp [ht]
  · intro sb text timer
    have : (sb.clear).clear = sb.clear := by
      unfold Statusbar.clear Statusbar.afterCancel
      by_cases ht : sb.timer = "" <;> simp [ht]
    simp only [Statusbar.setMsg, this]
  · intro ops
    suffices h : ((Statusbar.init).run ops).timerInv by
      rw [Statusbar.timerInv] at h
      rw [h]
      split <;> simp
    have hinit : (Statusbar.init).timerInv := by
      simp [Statusbar.timerInv, Statusbar.init]
    revert hinit
    generalize Statusbar.init = sb
    induction ops generalizing sb with
    | nil => intro h; exact h
    | cons op rest ih =>
        intro h
        exact ih _ (step_preserves_timerInv h op)

/-- Witness for C9 at concrete states: a bar with an active timer, a
bar with the sentinel, and a concrete event sequence that schedules,
reschedules and fires timers. -/
theorem statusbar_timer_cancellation_witness :
    (("after#0" : String) ≠ "") ∧
    (((⟨"hi", "after#0", ["after#0"], 1⟩ : Statusbar).clear).timer = "" ∧
      ((⟨"hi", "after#0", ["after#0"], 1⟩ : Statusbar).clear).pending
        = (["after#0"] : List String).erase "after#0") ∧
    (((⟨"hi", "", [], 1⟩ : Statusbar).clear).pending = []) ∧
    ((⟨"hi", "after#0", ["after#0"], 1⟩ : Statusbar).clear.clear
      = (⟨"hi", "after#0", ["after#0"], 1⟩ : Statusbar).clear) ∧
    (((⟨"hi", "after#0", ["after#0"], 1⟩ : Statusbar).setMsg "yo" (some 2)).pending
      = (((⟨"hi", "after#0", ["after#0"], 1⟩ : Statusbar).clear).setMsg
          "yo" (some 2)).pending) ∧
    (((Statusbar.init).run
        [.set "a" (some 1), .set "b" (some 3), .fire "after#1",
         .clear, .set "c" none]).pending.length ≤ 1) := by
  have h := statusbar_timer_cancellation
  exact ⟨by decide, h.1 ⟨"hi", "after#0", ["after#0"], 1⟩ (by decide),
         h.2.1 ⟨"hi", "", [], 1⟩ rfl, h.2.2.1 _,
         h.2.2.2.1 _ "yo" (some 2), h.2.2.2.2 _⟩

/-!
## Composite widgets (`src/yt_dlp_tk/interface/{text,entry,tree}.py`)

Each composite widget is embedded as its Resource Overlay (`__options`,
a `Dict`), the wrapped primitive widget's option table (`native`, a
`Dict` written by `super().configure` and read by `super().cget`), and
the mapped/unmapped flags of its auxiliary decorations.  Widget methods
return an action trace (`Act`) recording, in execution order, overlay
writes, signal emissions and forwards to the native widget.

The models describe the widgets as constructed: each signal's only
subscriber is the widget itself (the `connect(self)` calls in
`__init__`), so an emission is dispatched directly to `on_notify`.

`winfo_rgb` is the host toolkit's color-name resolution and is passed
in as a parameter `rgb` returning 16-bit components.
-/

/-- Errors escaping a widget method: the `InvalidSignalError` raised by
`on_notify` on an unknown signal name, any other Python exception
(`KeyError`, `IndexError`, `TypeError`), and exhaustion of the
recursion fuel used to embed `configure`/`on_notify` mutual calls (never
reached at the fuel budgets used below). -/
inductive Err where
  | invalidSignal (sig : String)
  | pyError
  | noFuel
deriving DecidableEq, Repr

/-- One observable action of a widget method. -/
inductive Act where
  | overlayWrite (key : String) (v : V)
  | emit (sig : String) (args : List V)
  | nativeConfig (kw : Dict)
deriving DecidableEq, Repr

/-- Digit of `%x` formatting. -/
def hexDigitChar (n : Nat) : Char :=
  if n < 10 then Char.ofNat ('0'.toNat + n) else Char.ofNat ('a'.toNat + (n - 10))

/-- Division loop of hex formatting, structurally recursive on a fuel
bound (`n` itself is always enough fuel, since `n / 16 < n` for
positive `n`). -/
def hexDigitsAux : Nat → Nat → List Char
  | 0, _ => []
  | fuel+1, n =>
      if n = 0 then [] else hexDigitsAux fuel (n / 16) ++ [hexDigitChar (n % 16)]

/-- Lowercase hex digits of `n`, most significant first (empty for 0). -/
def hexDigits (n : Nat) : List Char := hexDigitsAux n n

/-- Python `f"{n:06x}"`: lowercase hex, zero-padded to six digits. -/
def formatHex6 (n : Nat) : String :=
  let ds := hexDigits n
  String.mk (List.replicate (6 - ds.length) '0' ++ ds)

/-- Character class `[0-9a-f]`. -/
def isHexLowerDigit (c : Char) : Bool :=
  (decide ('0' ≤ c) && decide (c ≤ '9')) || (decide ('a' ≤ c) && decide (c ≤ 'f'))

/-- `re.match(r'#[0-9a-f]{6}', color)`: anchored at the start, extra
trailing characters allowed. -/
def matchHexColor (s : String) : Bool :=
  match s.toList with
  | '#' :: rest =>
      decide ((rest.take 6).length = 6) && (rest.take 6).all isHexLowerDigit
  | _ => false

/-- `ExText._tk_color_name_to_number` (`interface/text.py`, lines
15-21): pass 6-hex-digit codes through unchanged, otherwise resolve
the name via `winfo_rgb` and pack the three 16-bit components into a
`#rrggbb` code. -/
def tkColorNameToNumber (rgb : String → Nat × Nat × Nat) (color : String) :
    String :=
  if matchHexColor color then color
  else
    let (r, g, b) := rgb color
    let icolor := ((r &&& 0xff00) <<< 8) ||| (g &&& 0xff00) ||| (b >>> 8)
    "#" ++ formatHex6 icolor

/-!
### `ExTree` (`src/yt_dlp_tk/interface/tree.py`)
-/

/-- An `ExTree` as constructed: overlay holding `scrollx`/`scrolly`,
the native `ttk.Treeview` option table, and the two scrollbar mapped
flags. -/
structure ExTreeW where
  overlay : Dict
  native : Dict
  xbarMapped : Bool
  ybarMapped : Bool
deriving DecidableEq, Repr

/-- `ExTree.cget` (lines 121-125): the overlay takes priority, native
options are the fallback. -/
def ExTreeW.cget (t : ExTreeW) (key : String) : Option V :=
  if t.overlay.has key then t.overlay.get? key else t.native.get? key

/-- `super().configure(kw)` on the wrapped `ttk.Treeview`. -/
def ExTreeW.superConfigure (t : ExTreeW) (kw : Dict) : ExTreeW :=
  { t with native := t.native.update kw }

/-- `ExTree.on_notify` (lines 139-159). -/
def ExTreeW.onNotify (t : ExTreeW) (sig : String) (args : List V) :
    Except Err (ExTreeW × List Act) :=
  if sig = "x_scrollbar_changed" then
    match args with
    | v :: _ => .ok ({ t with xbarMapped := v.truthy }, [])
    | [] => .error .pyError
  else if sig = "y_scrollbar_changed" then
    match args with
    | v :: _ => .ok ({ t with ybarMapped := v.truthy }, [])
    | [] => .error .pyError
  else if sig = "item_doubleclicked" then
    .ok (t, [])
  else .error (.invalidSignal sig)

/-- Emission of one of the tree's own signals: record the emission and
deliver to the sole subscriber, the widget itself. -/
def ExTreeW.emitSelf (t : ExTreeW) (sig : String) (args : List V) :
    Except Err (ExTreeW × List Act) := do
  let (t', tr) ← t.onNotify sig args
  pure (t', Act.emit sig args :: tr)

/-- `ExTree.configure` (lines 127-137): handle `scrollx` then `scrolly`
(overlay write followed by the signal emission), then forward the
remaining options to the native widget. -/
def ExTreeW.configure (t : ExTreeW) (scrolly? scrollx? : Option Bool)
    (kw : Dict) : Except Err (ExTreeW × List Act) := do
  let (t1, tr1) ←
    match scrollx? with
    | some sb => do
        let tw := { t with overlay := t.overlay.set "scrollx" (V.b sb) }
        let (tw, tr) ← tw.emitSelf "x_scrollbar_changed" [V.b sb]
        pure (tw, Act.overlayWrite "scrollx" (V.b sb) :: tr)
    | none => pure (t, ([] : List Act))
  let (t2, tr2) ←
    match scrolly? with
    | some sb => do
        let tw := { t1 with overlay := t1.overlay.set "scrolly" (V.b sb) }
        let (tw, tr) ← tw.emitSelf "y_scrollbar_changed" [V.b sb]
        pure (tw, Act.overlayWrite "scrolly" (V.b sb) :: tr)
    | none => pure (t1, ([] : List Act))
  pure (t2.superConfigure kw, tr1 ++ tr2 ++ [Act.nativeConfig kw])

/-!
### `ExEntry` (`src/yt_dlp_tk/interface/entry.py`)
-/

/-- An `ExEntry` as constructed: overlay holding `scrollx`/`text`, the
native `ttk.Entry` option table, the scrollbar and caption-label mapped
flags, the label's text and the container frame's mapped flag. -/
structure ExEntryW where
  overlay : Dict
  native : Dict
  xbarMapped : Bool
  labelMapped : Bool
  labelText : V
  frameMapped : Bool
deriving DecidableEq, Repr

/-- `ExEntry.cget` (lines 71-75). -/
def ExEntryW.cget (e : ExEntryW) (key : String) : Option V :=
  if e.overlay.has key then e.overlay.get? key else e.native.get? key

/-- `super().configure(kw)` on the wrapped `ttk.Entry`. -/
def ExEntryW.superConfigure (e : ExEntryW) (kw : Dict) : ExEntryW :=
  { e with native := e.native.update kw }

/-- `ExEntry.on_notify` (lines 81-105): nonempty text maps the caption
label and sets its text, empty text unmaps it. -/
def ExEntryW.onNotify (e : ExEntryW) (sig : String) (args : List V) :
    Except Err (ExEntryW × List Act) :=
  if sig = "x_scrollbar_changed" then
    match args with
    | v :: _ => .ok ({ e with xbarMapped := v.truthy }, [])
    | [] => .error .pyError
  else if sig = "text_changed" then
    match args with
    | text :: _ =>
        if text.truthy then
          .ok ({ e with labelMapped := true, labelText := text }, [])
        else
          .ok ({ e with labelMapped := false }, [])
    | [] => .error .pyError
  else .error (.invalidSignal sig)

/-- Emission of one of the entry's own signals to its sole subscriber,
the widget itself. -/
def ExEntryW.emitSelf (e : ExEntryW) (sig : String) (args : List V) :
    Except Err (ExEntryW × List Act) := do
  let (e', tr) ← e.onNotify sig args
  pure (e', Act.emit sig args :: tr)

/-- `ExEntry.configure` (lines 59-69): handle `scrollx` then `text`,
then forward the remainder to the native widget. -/
def ExEntryW.configure (e : ExEntryW) (scrollx? : Option Bool)
    (text? : Option String) (kw : Dict) : Except Err (ExEntryW × List Act) := do
  let (e1, tr1) ←
    match scrollx? with
    | some sb => do
        let ew := { e with overlay := e.overlay.set "scrollx" (V.b sb) }
        let (ew, tr) ← ew.emitSelf "x_scrollbar_changed" [V.b sb]
        pure (ew, Act.overlayWrite "scrollx" (V.b sb) :: tr)
    | none => pure (e, ([] : List Act))
  let (e2, tr2) ←
    match text? with
    | some s => do
        let ew := { e1 with overlay := e1.overlay.set "text" (V.s s) }
        let (ew, tr) ← ew.emitSelf "text_changed" [V.s s]
        pure (ew, Act.overlayWrite "text" (V.s s) :: tr)
    | none => pure (e1, ([] : List Act))
  pure (e2.superConfigure kw, tr1 ++ tr2 ++ [Act.nativeConfig kw])

/-!
### `ExText` (`src/yt_dlp_tk/interface/text.py`)

`ExText.on_notify`'s `state_changed` branch calls `self.config(...)`
(an alias of `ExText.configure`), so `configure` and `on_notify` are
mutually recursive.  The embedding makes the recursion structural on a
fuel argument; the call depth of any entry point is at most three, so a
fuel budget of 4 never runs out on the executions in this file.
-/

/-- An `ExText` as constructed: overlay holding `disabledbackground` /
`normalbackground` / `scrolly`, the native `tk.Text` option table
(holding `state`, `background`, ...), and the vertical scrollbar's
mapped flag. -/
structure ExTextW where
  overlay : Dict
  native : Dict
  ybarMapped : Bool
deriving DecidableEq, Repr

/-- `ExText.cget` (lines 96-100). -/
def ExTextW.cget (t : ExTextW) (key : String) : Option V :=
  if t.overlay.has key then t.overlay.get? key else t.native.get? key

/-- `super().configure(kw)` on the wrapped `tk.Text`. -/
def ExTextW.superConfigure (t : ExTextW) (kw : Dict) : ExTextW :=
  { t with native := t.native.update kw }

mutual

/-- `ExText.configure` (lines 102-127), fuelled: resolve and store each
supplied color (emitting `background_changed`), store `scrolly`
(emitting `y_scrollbar_changed`), forward the remaining options to the
native widget, and finally emit `state_changed` when `state` was among
them. -/
def ExTextW.configureF (rgb : String → Nat × Nat × Nat) :
    Nat → ExTextW → Option String → Option String → Option Bool → Dict →
    Except Err (ExTextW × List Act)
  | 0, _, _, _, _, _ => .error .noFuel
  | fuel+1, t, db?, nb?, sy?, kw => do
      let (t1, tr1) ←
        match db? with
        | some c => do
            let v := V.s (tkColorNameToNumber rgb c)
            let tw := { t with overlay := t.overlay.set "disabledbackground" v }
            let (tw, tr) ← ExTextW.onNotifyF rgb fuel tw "background_changed"
                [V.s "disabled", V.s c]
            pure (tw, Act.overlayWrite "disabledbackground" v ::
                      Act.emit "background_changed" [V.s "disabled", V.s c] :: tr)
        | none => pure (t, ([] : List Act))
      let (t2, tr2) ←
        match nb? with
        | some c => do
            let v := V.s (tkColorNameToNumber rgb c)
            let tw := { t1 with overlay := t1.overlay.set "normalbackground" v }
            let (tw, tr) ← ExTextW.onNotifyF rgb fuel tw "background_changed"
                [V.s "normal", V.s c]
            pure (tw, Act.overlayWrite "normalbackground" v ::
                      Act.emit "background_changed" [V.s "normal", V.s c] :: tr)
        | none => pure (t1, ([] : List Act))
      let (t3, tr3) ←
        match sy? with
        | some sb => do
            let tw := { t2 with overlay := t2.overlay.set "scrolly" (V.b sb) }
            let (tw, tr) ← ExTextW.onNotifyF rgb fuel tw "y_scrollbar_changed"
                [V.b sb]
            pure (tw, Act.overlayWrite "scrolly" (V.b sb) ::
                      Act.emit "y_scrollbar_changed" [V.b sb] :: tr)
        | none => pure (t2, ([] : List Act))
      let t4 := t3.superConfigure kw
      match kw.get? "state" with
      | some v => do
          let (t5, tr5) ← ExTextW.onNotifyF rgb fuel t4 "state_changed" [v]
          pure (t5, tr1 ++ tr2 ++ tr3 ++ [Act.nativeConfig kw] ++
                    (Act.emit "state_changed" [v] :: tr5))
      | none => pure (t4, tr1 ++ tr2 ++ tr3 ++ [Act.nativeConfig kw])

/-- `ExText.on_notify` (lines 129-150), fuelled.  `state_changed` looks
the state's configured background color up through `cget` and applies
it via `self.config(background=color)`; `y_scrollbar_changed` maps or
unmaps the scrollbar; `background_changed` re-applies the color
directly when it belongs to the widget's current state; anything else
raises `InvalidSignalError`. -/
def ExTextW.onNotifyF (rgb : String → Nat × Nat × Nat) :
    Nat → ExTextW → String → List V → Except Err (ExTextW × List Act)
  | 0, _, _, _ => .error .noFuel
  | fuel+1, t, sig, args =>
      if sig = "state_changed" then
        match args with
        | V.s st :: _ =>
            match t.cget (st ++ "background") with
            | some color =>
                ExTextW.configureF rgb fuel t none none none
                  ⟨[("background", color)]⟩
            | none => .error .pyError
        | _ => .error .pyError
      else if sig = "y_scrollbar_changed" then
        match args with
        | v :: _ => .ok ({ t with ybarMapped := v.truthy }, [])
        | [] => .error .pyError
      else if sig = "background_changed" then
        match args with
        | [bgstate, color] =>
            match t.cget "state" with
            | some stv =>
                if stv = bgstate then
                  .ok (t.superConfigure ⟨[("background", color)]⟩,
                       [Act.nativeConfig ⟨[("background", color)]⟩])
                else .ok (t, [])
            | none => .error .pyError
        | _ => .error .pyError
      else .error (.invalidSignal sig)

end

/-- `ExText.configure` at the standard fuel budget. -/
def ExTextW.configure (rgb : String → Nat × Nat × Nat) (t : ExTextW)
    (db? nb? : Option String) (sy? : Option Bool) (kw : Dict) :
    Except Err (ExTextW × List Act) :=
  ExTextW.configureF rgb 4 t db? nb? sy? kw

/-- `ExText.on_notify` at the standard fuel budget. -/
def ExTextW.onNotify (rgb : String → Nat × Nat × Nat) (t : ExTextW)
    (sig : String) (args : List V) : Except Err (ExTextW × List Act) :=
  ExTextW.onNotifyF rgb 4 t sig args

/-- `ExText.state(state_spec)` with an argument (lines 164-174):
`self.configure(state=state_spec)`. -/
def ExTextW.stateSet (rgb : String → Nat × Nat × Nat) (t : ExTextW)
    (spec : String) : Except Err (ExTextW × List Act) :=
  ExTextW.configure rgb t none none none ⟨[("state", V.s spec)]⟩

/-- `ExText.state()` without an argument: `self.cget('state')`. -/
def ExTextW.stateGet (t : ExTextW) : Option V :=
  t.cget "state"

/-- A host color resolution mapping every name to white (the 16-bit
components Tk reports for `'white'`). -/
def rgbAllWhite : String → Nat × Nat × Nat := fun _ => (65535, 65535, 65535)

/-- An `ExText` as `__init__` leaves it: the three virtual options in
the overlay, `state`/`background` in the native table. -/
def exTextSample : ExTextW :=
  ⟨⟨[("disabledbackground", V.s "#262626"), ("normalbackground", V.s "white"),
     ("scrolly", V.b false)]⟩,
   ⟨[("state", V.s "normal"), ("background", V.s "#ffffff")]⟩, false⟩

/-- An `ExTree` as `__init__` leaves it with both scrollbars off. -/
def exTreeSample : ExTreeW :=
  ⟨⟨[("scrolly", V.b false), ("scrollx", V.b false)]⟩,
   ⟨[("height", V.i 10)]⟩, false, false⟩

/-- An `ExEntry` as `__init__` leaves it with caption text "Name". -/
def exEntrySample : ExEntryW :=
  ⟨⟨[("scrollx", V.b false), ("text", V.s "Name")]⟩, ⟨[]⟩, false, true,
   V.s "Name", true⟩

theorem exbind_ok {α β : Type} (a : α) (f : α → Except Err β) :
    (Except.ok a >>= f : Except Err β) = f a := rfl

theorem expure_eq_ok {α : Type} (a : α) :
    (pure a : Except Err α) = .ok a := rfl

theorem Dict.get?_nil (key : String) : (Dict.mk []).get? key = none := rfl

theorem Dict.update_nil (d : Dict) : d.update ⟨[]⟩ = d := rfl

theorem tkColorNameToNumber_hex (rgb : String → Nat × Nat × Nat) {c : String}
    (h : matchHexColor c = true) : tkColorNameToNumber rgb c = c := by
  simp [tkColorNameToNumber, h]

theorem ExTextW.cget_overlay_set_ne (t : ExTextW) (k key : String) (v : V)
    (h : key ≠ k) :
    ExTextW.cget { t with overlay := t.overlay.set k v } key = t.cget key := by
  simp [ExTextW.cget, Dict.has, Dict.get?_set_ne t.overlay k key v h]

/-!
### C7: unknown signal names raise `InvalidSignalError`
-/

theorem exText_onNotifyF_unknown (rgb : String → Nat × Nat × Nat) (fuel : Nat)
    (t : ExTextW) (sig : String) (args : List V)
    (h1 : sig ≠ "state_changed") (h2 : sig ≠ "y_scrollbar_changed")
    (h3 : sig ≠ "background_changed") :
    ExTextW.onNotifyF rgb (fuel + 1) t sig args
      = .error (.invalidSignal sig) := by
  simp [ExTextW.onNotifyF, h1, h2, h3]

/-- C7. Invalid-signal strictness: each composite widget's multiplexed
`on_notify` raises `InvalidSignalError` on every signal name outside
the fixed set that variant handles, instead of returning normally. -/
theorem on_notify_unknown_signal_errors :
    (∀ (rgb : String → Nat × Nat × Nat) (t : ExTextW) (sig : String)
        (args : List V),
        sig ∉ ["state_changed", "y_scrollbar_changed", "background_changed"] →
        ExTextW.onNotify rgb t sig args = .error (.invalidSignal sig)) ∧
    (∀ (e : ExEntryW) (sig : String) (args : List V),
        sig ∉ ["x_scrollbar_changed", "text_changed"] →
        ExEntryW.onNotify e sig args = .error (.invalidSignal sig)) ∧
    (∀ (t : ExTreeW) (sig : String) (args : List V),
        sig ∉ ["x_scrollbar_changed", "y_scrollbar_changed",
               "item_doubleclicked"] →
        ExTreeW.onNotify t sig args = .error (.invalidSignal sig)) := by
  refine ⟨?_, ?_, ?_⟩
  · intro rgb t sig args h
    simp only [List.mem_cons, List.not_mem_nil, or_false, not_or] at h
    exact exText_onNotifyF_unknown rgb 3 t sig args h.1 h.2.1 h.2.2
  · intro e sig args h
    simp only [List.mem_cons, List.not_mem_nil, or_false, not_or] at h
    simp [ExEntryW.onNotify, h.1, h.2]
  · intro t sig args h
    simp only [List.mem_cons, List.not_mem_nil, or_false, not_or] at h
    simp [ExTreeW.onNotify, h.1, h.2.1, h.2.2]

/-- Witness for C7: the name `"bogus"` reaches each of the three
`on_notify` methods and raises. -/
theorem on_notify_unknown_signal_errors_witness :
    (("bogus" : String)
        ∉ ["state_changed", "y_scrollbar_changed", "background_changed"]) ∧
    (ExTextW.onNotify rgbAllWhite exTextSample "bogus" []
        = .error (.invalidSignal "bogus")) ∧
    (ExEntryW.onNotify exEntrySample "bogus" []
        = .error (.invalidSignal "bogus")) ∧
    (ExTreeW.onNotify exTreeSample "bogus" []
        = .error (.invalidSignal "bogus")) :=
  ⟨by decide,
   on_notify_unknown_signal_errors.1 rgbAllWhite exTextSample "bogus" []
     (by decide),
   on_notify_unknown_signal_errors.2.1 exEntrySample "bogus" [] (by decide),
   on_notify_unknown_signal_errors.2.2 exTreeSample "bogus" [] (by decide)⟩

/-!
### C3: virtual-option round-trips
-/

theorem exText_configure_scrolly (rgb : String → Nat × Nat × Nat) (fuel : Nat)
    (t : ExTextW) (sb : Bool) (kw : Dict) (hkw : kw.get? "state" = none) :
    ExTextW.configureF rgb (fuel + 2) t none none (some sb) kw
      = .ok ({ t with overlay := t.overlay.set "scrolly" (V.b sb),
                      native := t.native.update kw, ybarMapped := sb },
             [Act.overlayWrite "scrolly" (V.b sb),
              Act.emit "y_scrollbar_changed" [V.b sb],
              Act.nativeConfig kw]) := by
  simp [ExTextW.configureF, ExTextW.onNotifyF, ExTextW.superConfigure,
        V.truthy, hkw, exbind_ok, expure_eq_ok]

theorem exText_configure_db (rgb : String → Nat × Nat × Nat) (fuel : Nat)
    (t : ExTextW) (c : String) (stv : V) (hc : matchHexColor c = true)
    (ht : t.cget "state" = some stv) :
    ∃ t' tr, ExTextW.configureF rgb (fuel + 2) t (some c) none none ⟨[]⟩
        = .ok (t', tr) ∧
      t'.overlay = t.overlay.set "disabledbackground" (V.s c) := by
  have hres := tkColorNameToNumber_hex rgb hc
  have ht1 : ExTextW.cget
      { t with overlay := t.overlay.set "disabledbackground" (V.s c) } "state"
      = some stv := by
    rw [ExTextW.cget_overlay_set_ne t _ _ _ (by decide)]
    exact ht
  by_cases hb : stv = V.s "disabled"
  · refine ⟨⟨t.overlay.set "disabledbackground" (V.s c),
             t.native.update ⟨[("background", V.s c)]⟩, t.ybarMapped⟩,
            [Act.overlayWrite "disabledbackground" (V.s c),
             Act.emit "background_changed" [V.s "disabled", V.s c],
             Act.nativeConfig ⟨[("background", V.s c)]⟩,
             Act.nativeConfig ⟨[]⟩], ?_, rfl⟩
    simp [ExTextW.configureF, ExTextW.onNotifyF, ExTextW.superConfigure,
          hres, ht1, hb, exbind_ok, expure_eq_ok, Dict.get?_nil,
          Dict.update_nil]
  · refine ⟨⟨t.overlay.set "disabledbackground" (V.s c),
             t.native, t.ybarMapped⟩,
            [Act.overlayWrite "disabledbackground" (V.s c),
             Act.emit "background_changed" [V.s "disabled", V.s c],
             Act.nativeConfig ⟨[]⟩], ?_, rfl⟩
    simp [ExTextW.configureF, ExTextW.onNotifyF, ExTextW.superConfigure,
          hres, ht1, hb, exbind_ok, expure_eq_ok, Dict.get?_nil,
          Dict.update_nil]

theorem exText_configure_nb (rgb : String → Nat × Nat × Nat) (fuel : Nat)
    (t : ExTextW) (c : String) (stv : V) (hc : matchHexColor c = true)
    (ht : t.cget "state" = some stv) :
    ∃ t' tr, ExTextW.configureF rgb (fuel + 2) t none (some c) none ⟨[]⟩
        = .ok (t', tr) ∧
      t'.overlay = t.overlay.set "normalbackground" (V.s c) := by
  have hres := tkColorNameToNumber_hex rgb hc
  have ht1 : ExTextW.cget
      { t with overlay := t.overlay.set "normalbackground" (V.s c) } "state"
      = some stv := by
    rw [ExTextW.cget_overlay_set_ne t _ _ _ (by decide)]
    exact ht
  by_cases hb : stv = V.s "normal"
  · refine ⟨⟨t.overlay.set "normalbackground" (V.s c),
             t.native.update ⟨[("background", V.s c)]⟩, t.ybarMapped⟩,
            [Act.overlayWrite "normalbackground" (V.s c),
             Act.emit "background_changed" [V.s "normal", V.s c],
             Act.nativeConfig ⟨[("background", V.s c)]⟩,
             Act.nativeConfig ⟨[]⟩], ?_, rfl⟩
    simp [ExTextW.configureF, ExTextW.onNotifyF, ExTextW.superConfigure,
          hres, ht1, hb, exbind_ok, expure_eq_ok, Dict.get?_nil,
          Dict.update_nil]
  · refine ⟨⟨t.overlay.set "normalbackground" (V.s c),
             t.native, t.ybarMapped⟩,
            [Act.overlayWrite "normalbackground" (V.s c),
             Act.emit "background_changed" [V.s "normal", V.s c],
             Act.nativeConfig ⟨[]⟩], ?_, rfl⟩
    simp [ExTextW.configureF, ExTextW.onNotifyF, ExTextW.superConfigure,
          hres, ht1, hb, exbind_ok, expure_eq_ok, Dict.get?_nil,
          Dict.update_nil]

/-- C3 (counterexample).  Configuring the text widget's virtual
`normalbackground` option with the symbolic color name `"white"` and
querying it back returns the resolved code `"#ffffff"`, not the value
`"white"` that was passed, so the round-trip is not the identity on
symbolic color names. -/
theorem ExText_symbolic_color_not_returned_verbatim :
    (∃ t' tr, ExTextW.configure rgbAllWhite exTextSample
        none (some "white") none ⟨[]⟩ = .ok (t', tr) ∧
      t'.cget "normalbackground" = some (V.s "#ffffff")) ∧
    some (V.s "#ffffff") ≠ some (V.s "white") := by
  constructor
  · refine ⟨⟨⟨[("disabledbackground", V.s "#262626"),
              ("normalbackground", V.s "#ffffff"), ("scrolly", V.b false)]⟩,
             ⟨[("state", V.s "normal"), ("background", V.s "white")]⟩, false⟩,
            [Act.overlayWrite "normalbackground" (V.s "#ffffff"),
             Act.emit "background_changed" [V.s "normal", V.s "white"],
             Act.nativeConfig ⟨[("background", V.s "white")]⟩,
             Act.nativeConfig ⟨[]⟩], ?_, ?_⟩ <;> rfl
  · decide

/-- C3 (amended claim).  On every composite widget the overlay takes
priority on read; `configure(virtualOpt=X)` followed by
`query(virtualOpt)` returns exactly `X` for every value that is stored
verbatim — the boolean scrollbar flags, the entry caption text, and
colors already written as 6-hex-digit codes — while a symbolic color
name is resolved once at configure time and queried back as its
6-hex-digit code. -/
theorem virtual_option_roundtrip_overlay :
    (∀ (w : ExTextW) (key : String), w.overlay.has key = true →
        w.cget key = w.overlay.get? key) ∧
    (∀ (w : ExTreeW) (key : String), w.overlay.has key = true →
        w.cget key = w.overlay.get? key) ∧
    (∀ (w : ExEntryW) (key : String), w.overlay.has key = true →
        w.cget key = w.overlay.get? key) ∧
    (∀ (rgb : String → Nat × Nat × Nat) (t : ExTextW) (sb : Bool),
        ∃ t' tr, ExTextW.configure rgb t none none (some sb) ⟨[]⟩
            = .ok (t', tr) ∧ t'.cget "scrolly" = some (V.b sb)) ∧
    (∀ (rgb : String → Nat × Nat × Nat) (t : ExTextW) (c : String) (stv : V),
        matchHexColor c = true → t.cget "state" = some stv →
        ∃ t' tr, ExTextW.configure rgb t (some c) none none ⟨[]⟩
            = .ok (t', tr) ∧ t'.cget "disabledbackground" = some (V.s c)) ∧
    (∀ (rgb : String → Nat × Nat × Nat) (t : ExTextW) (c : String) (stv : V),
        matchHexColor c = true → t.cget "state" = some stv →
        ∃ t' tr, ExTextW.configure rgb t none (some c) none ⟨[]⟩
            = .ok (t', tr) ∧ t'.cget "normalbackground" = some (V.s c)) ∧
    (∀ (w : ExTreeW) (sb : Bool),
        ∃ t' tr, ExTreeW.configure w none (some sb) ⟨[]⟩ = .ok (t', tr) ∧
          t'.cget "scrollx" = some (V.b sb)) ∧
    (∀ (w : ExTreeW) (sb : Bool),
        ∃ t' tr, ExTreeW.configure w (some sb) none ⟨[]⟩ = .ok (t', tr) ∧
          t'.cget "scrolly" = some (V.b sb)) ∧
    (∀ (w : ExEntryW) (sb : Bool),
        ∃ e' tr, ExEntryW.configure w (some sb) none ⟨[]⟩ = .ok (e', tr) ∧
          e'.cget "scrollx" = some (V.b sb)) ∧
    (∀ (w : ExEntryW) (s : String),
        ∃ e' tr, ExEntryW.configure w none (some s) ⟨[]⟩ = .ok (e', tr) ∧
          e'.cget "text" = some (V.s s)) := by
  refine ⟨?_, ?_, ?_, ?_, ?_, ?_, ?_, ?_, ?_, ?_⟩
  · intro w key h
    simp [ExTextW.cget, h]
  · intro w key h
    simp [ExTreeW.cget, h]
  · intro w key h
    simp [ExEntryW.cget, h]
  · intro rgb t sb
    refine ⟨_, _, exText_configure_scrolly rgb 2 t sb ⟨[]⟩ rfl, ?_⟩
    simp [ExTextW.cget, Dict.has, Dict.get?_set_self]
  · intro rgb t c stv hc ht
    obtain ⟨t', tr, hcfg, hov⟩ := exText_configure_db rgb 2 t c stv hc ht
    exact ⟨t', tr, hcfg, by simp [ExTextW.cget, Dict.has, hov, Dict.get?_set_self]⟩
  · intro rgb t c stv hc ht
    obtain ⟨t', tr, hcfg, hov⟩ := exText_configure_nb rgb 2 t c stv hc ht
    exact ⟨t', tr, hcfg, by simp [ExTextW.cget, Dict.has, hov, Dict.get?_set_self]⟩
  · intro w sb
    refine ⟨⟨w.overlay.set "scrollx" (V.b sb), w.native, sb, w.ybarMapped⟩,
            [Act.overlayWrite "scrollx" (V.b sb),
             Act.emit "x_scrollbar_changed" [V.b sb],
             Act.nativeConfig ⟨[]⟩], ?_, ?_⟩
    · simp [ExTreeW.configure, ExTreeW.emitSelf, ExTreeW.onNotify,
            ExTreeW.superConfigure, V.truthy, exbind_ok, expure_eq_ok,
            Dict.update]
    · simp [ExTreeW.cget, Dict.has, Dict.get?_set_self]
  · intro w sb
    refine ⟨⟨w.overlay.set "scrolly" (V.b sb), w.native, w.xbarMapped, sb⟩,
            [Act.overlayWrite "scrolly" (V.b sb),
             Act.emit "y_scrollbar_changed" [V.b sb],
             Act.nativeConfig ⟨[]⟩], ?_, ?_⟩
    · simp [ExTreeW.configure, ExTreeW.emitSelf, ExTreeW.onNotify,
            ExTreeW.superConfigure, V.truthy, exbind_ok, expure_eq_ok,
            Dict.update]
    · simp [ExTreeW.cget, Dict.has, Dict.get?_set_self]
  · intro w sb
    refine ⟨⟨w.overlay.set "scrollx" (V.b sb), w.native, sb, w.labelMapped,
             w.labelText, w.frameMapped⟩,
            [Act.overlayWrite "scrollx" (V.b sb),
             Act.emit "x_scrollbar_changed" [V.b sb],
             Act.nativeConfig ⟨[]⟩], ?_, ?_⟩
    · simp [ExEntryW.configure, ExEntryW.emitSelf, ExEntryW.onNotify,
            ExEntryW.superConfigure, V.truthy, exbind_ok, expure_eq_ok,
            Dict.update]
    · simp [ExEntryW.cget, Dict.has, Dict.get?_set_self]
  · intro w s
    by_cases hs : s.isEmpty
    · refine ⟨⟨w.overlay.set "text" (V.s s), w.native, w.xbarMapped, false,
               w.labelText, w.frameMapped⟩,
              [Act.overlayWrite "text" (V.s s),
               Act.emit "text_changed" [V.s s],
               Act.nativeConfig ⟨[]⟩], ?_, ?_⟩
      · simp [ExEntryW.configure, ExEntryW.emitSelf, ExEntryW.onNotify,
              ExEntryW.superConfigure, V.truthy, hs, exbind_ok, expure_eq_ok,
              Dict.update]
      · simp [ExEntryW.cget, Dict.has, Dict.get?_set_self]
    · refine ⟨⟨w.overlay.set "text" (V.s s), w.native, w.xbarMapped, true,
               V.s s, w.frameMapped⟩,
              [Act.overlayWrite "text" (V.s s),
               Act.emit "text_changed" [V.s s],
               Act.nativeConfig ⟨[]⟩], ?_, ?_⟩
      · simp [ExEntryW.configure, ExEntryW.emitSelf, ExEntryW.onNotify,
              ExEntryW.superConfigure, V.truthy, hs, exbind_ok, expure_eq_ok,
              Dict.update]
      · simp [ExEntryW.cget, Dict.has, Dict.get?_set_self]

/-- Witness for C3's amended claim at concrete widgets: the overlay
priority on the sample text widget, a `scrolly`/`scrollx`/`text`
round-trip on each variant, and a 6-hex-digit color round-trip. -/
theorem virtual_option_roundtrip_overlay_witness :
    (exTextSample.overlay.has "scrolly" = true) ∧
    (exTextSample.cget "scrolly" = exTextSample.overlay.get? "scrolly") ∧
    (∃ t' tr, ExTextW.configure rgbAllWhite exTextSample
        none none (some true) ⟨[]⟩ = .ok (t', tr) ∧
      t'.cget "scrolly" = some (V.b true)) ∧
    (matchHexColor "#123abc" = true) ∧
    (exTextSample.cget "state" = some (V.s "normal")) ∧
    (∃ t' tr, ExTextW.configure rgbAllWhite exTextSample
        (some "#123abc") none none ⟨[]⟩ = .ok (t', tr) ∧
      t'.cget "disabledbackground" = some (V.s "#123abc")) ∧
    (∃ t' tr, ExTreeW.configure exTreeSample none (some true) ⟨[]⟩
        = .ok (t', tr) ∧ t'.cget "scrollx" = some (V.b true)) ∧
    (∃ e' tr, ExEntryW.configure exEntrySample none (some "URL") ⟨[]⟩
        = .ok (e', tr) ∧ e'.cget "text" = some (V.s "URL")) :=
  ⟨rfl,
   virtual_option_roundtrip_overlay.1 exTextSample "scrolly" rfl,
   virtual_option_roundtrip_overlay.2.2.2.1 rgbAllWhite exTextSample true,
   rfl, rfl,
   virtual_option_roundtrip_overlay.2.2.2.2.1 rgbAllWhite
     exTextSample "#123abc" (V.s "normal") rfl rfl,
   virtual_option_roundtrip_overlay.2.2.2.2.2.2.1 exTreeSample true,
   virtual_option_roundtrip_overlay.2.2.2.2.2.2.2.2.2 exEntrySample "URL"⟩

/-!
### C4: configure ordering and emission conditions
-/

/-- The actions a widget's `configure` performs for one supplied
boolean virtual option: the overlay write followed by the signal
emission (and nothing when the option is omitted). -/
def virtTrace (key sig : String) : Option Bool → List Act
  | none => []
  | some sb => [.overlayWrite key (V.b sb), .emit sig [V.b sb]]

theorem exText_configure_native_only (rgb : String → Nat × Nat × Nat)
    (fuel : Nat) (t : ExTextW) (kw : Dict) (hkw : kw.get? "state" = none) :
    ExTextW.configureF rgb (fuel + 1) t none none none kw
      = .ok ({ t with native := t.native.update kw }, [Act.nativeConfig kw]) := by
  simp [ExTextW.configureF, ExTextW.superConfigure, hkw, exbind_ok,
        expure_eq_ok]

theorem exTree_configure_trace (w : ExTreeW) (sy? sx? : Option Bool)
    (kw : Dict) :
    ∃ t', ExTreeW.configure w sy? sx? kw
      = .ok (t', virtTrace "scrollx" "x_scrollbar_changed" sx?
              ++ virtTrace "scrolly" "y_scrollbar_changed" sy?
              ++ [Act.nativeConfig kw]) := by
  cases sx? with
  | none =>
      cases sy? with
      | none =>
          refine ⟨⟨w.overlay, w.native.update kw, w.xbarMapped, w.ybarMapped⟩, ?_⟩
          simp [ExTreeW.configure, ExTreeW.superConfigure, virtTrace,
                exbind_ok, expure_eq_ok]
      | some b2 =>
          refine ⟨⟨w.overlay.set "scrolly" (V.b b2), w.native.update kw,
                   w.xbarMapped, b2⟩, ?_⟩
          simp [ExTreeW.configure, ExTreeW.emitSelf, ExTreeW.onNotify,
                ExTreeW.superConfigure, virtTrace, V.truthy, exbind_ok,
                expure_eq_ok]
  | some b1 =>
      cases sy? with
      | none =>
          refine ⟨⟨w.overlay.set "scrollx" (V.b b1), w.native.update kw,
                   b1, w.ybarMapped⟩, ?_⟩
          simp [ExTreeW.configure, ExTreeW.emitSelf, ExTreeW.onNotify,
                ExTreeW.superConfigure, virtTrace, V.truthy, exbind_ok,
                expure_eq_ok]
      | some b2 =>
          refine ⟨⟨(w.overlay.set "scrollx" (V.b b1)).set "scrolly" (V.b b2),
                   w.native.update kw, b1, b2⟩, ?_⟩
          simp [ExTreeW.configure, ExTreeW.emitSelf, ExTreeW.onNotify,
                ExTreeW.superConfigure, virtTrace, V.truthy, exbind_ok,
                expure_eq_ok]

/-- C4 (counterexample).  `configure(scrolly=False)` on a tree whose
`scrolly` overlay value is already `False` still emits
`y_scrollbar_changed`: the signal fires for every supplied virtual
option, not only for options actually changed by the call. -/
theorem ExTree_configure_emits_for_unchanged_option :
    exTreeSample.cget "scrolly" = some (V.b false) ∧
    (∃ t', ExTreeW.configure exTreeSample (some false) none ⟨[]⟩
        = .ok (t', [Act.overlayWrite "scrolly" (V.b false),
                    Act.emit "y_scrollbar_changed" [V.b false],
                    Act.nativeConfig ⟨[]⟩]) ∧
      t'.cget "scrolly" = some (V.b false)) :=
  ⟨rfl, ⟨exTreeSample, rfl, rfl⟩⟩

/-- C4 (amended claim).  A configure call performs every virtual-option
side effect — the overlay write immediately followed by that option's
signal emission — before forwarding the remaining options to the
wrapped primitive widget, emits the signal of each virtual option
supplied in the call (whether or not the value differs from the current
one), and emits nothing for omitted options; the text widget's trailing
`state_changed` emission concerns the native `state` option and follows
the native forward. -/
theorem configure_virtual_effects_before_native_forward :
    (∀ (w : ExTreeW) (sy? sx? : Option Bool) (kw : Dict),
        ∃ t', ExTreeW.configure w sy? sx? kw
          = .ok (t', virtTrace "scrollx" "x_scrollbar_changed" sx?
                  ++ virtTrace "scrolly" "y_scrollbar_changed" sy?
                  ++ [Act.nativeConfig kw])) ∧
    (∀ (rgb : String → Nat × Nat × Nat) (t : ExTextW) (sb : Bool) (kw : Dict),
        kw.get? "state" = none →
        ExTextW.configure rgb t none none (some sb) kw
          = .ok ({ t with overlay := t.overlay.set "scrolly" (V.b sb),
                          native := t.native.update kw, ybarMapped := sb },
                 virtTrace "scrolly" "y_scrollbar_changed" (some sb)
                   ++ [Act.nativeConfig kw])) ∧
    (∀ (rgb : String → Nat × Nat × Nat) (t : ExTextW) (kw : Dict),
        kw.get? "state" = none →
        ExTextW.configure rgb t none none none kw
          = .ok ({ t with native := t.native.update kw },
                 [Act.nativeConfig kw])) := by
  refine ⟨exTree_configure_trace, ?_, ?_⟩
  · intro rgb t sb kw hkw
    exact exText_configure_scrolly rgb 2 t sb kw hkw
  · intro rgb t kw hkw
    exact exText_configure_native_only rgb 3 t kw hkw

/-- Witness for C4's amended claim at concrete widgets: both tree
options supplied, only `scrolly` supplied on the text widget over a
state-free native option set, and a purely native call emitting
nothing. -/
theorem configure_virtual_effects_before_native_forward_witness :
    (∃ t', ExTreeW.configure exTreeSample (some true) (some true)
        ⟨[("height", V.i 5)]⟩
      = .ok (t', virtTrace "scrollx" "x_scrollbar_changed" (some true)
              ++ virtTrace "scrolly" "y_scrollbar_changed" (some true)
              ++ [Act.nativeConfig ⟨[("height", V.i 5)]⟩])) ∧
    ((Dict.mk [("width", V.i 80)]).get? "state" = none) ∧
    (ExTextW.configure rgbAllWhite exTextSample none none (some true)
          ⟨[("width", V.i 80)]⟩
        = .ok ({ exTextSample with
                   overlay := exTextSample.overlay.set "scrolly" (V.b true),
                   native := exTextSample.native.update ⟨[("width", V.i 80)]⟩,
                   ybarMapped := true },
               virtTrace "scrolly" "y_scrollbar_changed" (some true)
                 ++ [Act.nativeConfig ⟨[("width", V.i 80)]⟩])) ∧
    (ExTextW.configure rgbAllWhite exTextSample none none none
          ⟨[("width", V.i 80)]⟩
        = .ok ({ exTextSample with
                   native := exTextSample.native.update ⟨[("width", V.i 80)]⟩ },
               [Act.nativeConfig ⟨[("width", V.i 80)]⟩])) :=
  ⟨configure_virtual_effects_before_native_forward.1 exTreeSample
      (some true) (some true) ⟨[("height", V.i 5)]⟩,
   rfl,
   configure_virtual_effects_before_native_forward.2.1 rgbAllWhite
      exTextSample true ⟨[("width", V.i 80)]⟩ rfl,
   configure_virtual_effects_before_native_forward.2.2 rgbAllWhite
      exTextSample ⟨[("width", V.i 80)]⟩ rfl⟩

/-!
### C6: state toggling re-applies the state's background color
-/

theorem exText_stateSet_general (rgb : String → Nat × Nat × Nat) (fuel : Nat)
    (t : ExTextW) (spec : String) (cv : V)
    (hov : t.overlay.get? (spec ++ "background") = some cv) :
    ExTextW.configureF rgb (fuel + 3) t none none none
        ⟨[("state", V.s spec)]⟩
      = .ok ({ t with native := (t.native.update ⟨[("state", V.s spec)]⟩).update
                        ⟨[("background", cv)]⟩ },
             [Act.nativeConfig ⟨[("state", V.s spec)]⟩,
              Act.emit "state_changed" [V.s spec],
              Act.nativeConfig ⟨[("background", cv)]⟩]) := by
  have hhas : t.overlay.has (spec ++ "background") = true := by
    simp [Dict.has, hov]
  have hget1 : Dict.get? ⟨[("state", V.s spec)]⟩ "state" = some (V.s spec) := rfl
  have hget2 : ∀ v : V, Dict.get? ⟨[("background", v)]⟩ "state" = none :=
    fun _ => rfl
  simp [ExTextW.configureF, ExTextW.onNotifyF, ExTextW.cget,
        ExTextW.superConfigure, hget1, hget2, hhas, hov, exbind_ok,
        expure_eq_ok]

theorem exText_stateSet_props (rgb : String → Nat × Nat × Nat) (t : ExTextW)
    (spec : String) (cv : V)
    (hov : t.overlay.get? (spec ++ "background") = some cv)
    (hb : t.overlay.has "background" = false)
    (hs : t.overlay.has "state" = false) :
    ∃ t₁ tr₁, ExTextW.stateSet rgb t spec = .ok (t₁, tr₁) ∧
      t₁.overlay = t.overlay ∧ t₁.cget "background" = some cv ∧
      t₁.stateGet = some (V.s spec) := by
  refine ⟨_, _, exText_stateSet_general rgb 1 t spec cv hov, rfl, ?_, ?_⟩
  · have hbg : ((t.native.update ⟨[("state", V.s spec)]⟩).update
        ⟨[("background", cv)]⟩).get? "background" = some cv := by
      simp [Dict.update, Dict.get?_set_self]
    simp [ExTextW.cget, hb, hbg]
  · have hst : ((t.native.update ⟨[("state", V.s spec)]⟩).update
        ⟨[("background", cv)]⟩).get? "state" = some (V.s spec) := by
      show ((t.native.set "state" (V.s spec)).set "background" cv).get? "state"
        = some (V.s spec)
      rw [Dict.get?_set_ne _ _ _ _ (by decide), Dict.get?_set_self]
    simp [ExTextW.stateGet, ExTextW.cget, hs, hst]

/-- One disable/enable round trip through `ExText.state`. -/
def ExTextW.toggleDN (rgb : String → Nat × Nat × Nat) (t : ExTextW) :
    Except Err ExTextW := do
  let (t1, _) ← ExTextW.stateSet rgb t "disabled"
  let (t2, _) ← ExTextW.stateSet rgb t1 "normal"
  pure t2

/-- `k` successive disable/enable round trips. -/
def ExTextW.toggleN (rgb : String → Nat × Nat × Nat) :
    Nat → ExTextW → Except Err ExTextW
  | 0, t => .ok t
  | k+1, t => do
      let t' ← ExTextW.toggleDN rgb t
      ExTextW.toggleN rgb k t'

theorem exText_toggle_step (rgb : String → Nat × Nat × Nat) (t : ExTextW)
    (d n : V)
    (hd : t.overlay.get? "disabledbackground" = some d)
    (hn : t.overlay.get? "normalbackground" = some n)
    (hb : t.overlay.has "background" = false)
    (hs : t.overlay.has "state" = false) :
    ∃ t', ExTextW.toggleDN rgb t = .ok t' ∧ t'.overlay = t.overlay ∧
      t'.cget "background" = some n ∧ t'.stateGet = some (V.s "normal") := by
  obtain ⟨t₁, tr₁, h1, hov1, _, _⟩ :=
    exText_stateSet_props rgb t "disabled" d hd hb hs
  obtain ⟨t₂, tr₂, h2, hov2, hbg2, hst2⟩ :=
    exText_stateSet_props rgb t₁ "normal" n (by rw [hov1]; exact hn)
      (by rw [hov1]; exact hb) (by rw [hov1]; exact hs)
  refine ⟨t₂, ?_, by rw [hov2, hov1], hbg2, hst2⟩
  simp [ExTextW.toggleDN, h1, h2, exbind_ok, expure_eq_ok]

theorem exText_toggleN_props (rgb : String → Nat × Nat × Nat) (k : Nat)
    (t : ExTextW) (d n : V)
    (hd : t.overlay.get? "disabledbackground" = some d)
    (hn : t.overlay.get? "normalbackground" = some n)
    (hb : t.overlay.has "background" = false)
    (hs : t.overlay.has "state" = false) :
    ∃ t', ExTextW.toggleN rgb (k+1) t = .ok t' ∧ t'.overlay = t.overlay ∧
      t'.cget "background" = some n ∧ t'.stateGet = some (V.s "normal") := by
  induction k generalizing t with
  | zero =>
      obtain ⟨t', h1, hov, hbg, hst⟩ := exText_toggle_step rgb t d n hd hn hb hs
      refine ⟨t', ?_, hov, hbg, hst⟩
      simp [ExTextW.toggleN, h1, exbind_ok, expure_eq_ok]
  | succ k ih =>
      obtain ⟨t', h1, hov, hbg, hst⟩ := exText_toggle_step rgb t d n hd hn hb hs
      obtain ⟨t'', h2, hov2, hbg2, hst2⟩ := ih t' (by rw [hov]; exact hd)
        (by rw [hov]; exact hn) (by rw [hov]; exact hb) (by rw [hov]; exact hs)
      refine ⟨t'', ?_, by rw [hov2, hov], hbg2, hst2⟩
      show ExTextW.toggleN rgb (k+1+1) t = .ok t''
      simp [ExTextW.toggleN, h1, exbind_ok]
      exact h2

/-- C6. Text-area state/background invariant: on any text widget whose
overlay holds the two configured colors (and does not shadow the native
`state`/`background` options), setting the state to `'disabled'`
synchronously re-applies the configured disabled-background, flipping
back to `'normal'` re-applies the configured normal-background, and the
round trip can be repeated any number of times. -/
theorem ExText_state_background_invariant :
    ∀ (rgb : String → Nat × Nat × Nat) (t : ExTextW) (d n : V),
      t.overlay.get? "disabledbackground" = some d →
      t.overlay.get? "normalbackground" = some n →
      t.overlay.has "background" = false →
      t.overlay.has "state" = false →
      (∃ t₁ tr₁, ExTextW.stateSet rgb t "disabled" = .ok (t₁, tr₁) ∧
        t₁.cget "background" = some d ∧ t₁.stateGet = some (V.s "disabled") ∧
        t₁.overlay = t.overlay ∧
        ∃ t₂ tr₂, ExTextW.stateSet rgb t₁ "normal" = .ok (t₂, tr₂) ∧
          t₂.cget "background" = some n ∧ t₂.stateGet = some (V.s "normal") ∧
          t₂.overlay = t.overlay) ∧
      (∀ k : Nat, ∃ t', ExTextW.toggleN rgb (k+1) t = .ok t' ∧
        t'.cget "background" = some n ∧ t'.stateGet = some (V.s "normal")) := by
  intro rgb t d n hd hn hb hs
  constructor
  · obtain ⟨t₁, tr₁, h1, hov1, hbg1, hst1⟩ :=
      exText_stateSet_props rgb t "disabled" d hd hb hs
    obtain ⟨t₂, tr₂, h2, hov2, hbg2, hst2⟩ :=
      exText_stateSet_props rgb t₁ "normal" n (by rw [hov1]; exact hn)
        (by rw [hov1]; exact hb) (by rw [hov1]; exact hs)
    exact ⟨t₁, tr₁, h1, hbg1, hst1, hov1,
           t₂, tr₂, h2, hbg2, hst2, by rw [hov2, hov1]⟩
  · intro k
    obtain ⟨t', h, _, hbg, hst⟩ :=
      exText_toggleN_props rgb k t d n hd hn hb hs
    exact ⟨t', h, hbg, hst⟩

/-- Witness for C6 at the sample text widget, whose overlay holds the
construction-time colors. -/
theorem ExText_state_background_invariant_witness :
    exTextSample.overlay.get? "disabledbackground" = some (V.s "#262626") ∧
    exTextSample.overlay.get? "normalbackground" = some (V.s "white") ∧
    exTextSample.overlay.has "background" = false ∧
    exTextSample.overlay.has "state" = false ∧
    ((∃ t₁ tr₁, ExTextW.stateSet rgbAllWhite exTextSample "disabled"
        = .ok (t₁, tr₁) ∧
        t₁.cget "background" = some (V.s "#262626") ∧
        t₁.stateGet = some (V.s "disabled") ∧
        t₁.overlay = exTextSample.overlay ∧
        ∃ t₂ tr₂, ExTextW.stateSet rgbAllWhite t₁ "normal" = .ok (t₂, tr₂) ∧
          t₂.cget "background" = some (V.s "white") ∧
          t₂.stateGet = some (V.s "normal") ∧
          t₂.overlay = exTextSample.overlay) ∧
      (∀ k : Nat, ∃ t', ExTextW.toggleN rgbAllWhite (k+1) exTextSample
          = .ok t' ∧ t'.cget "background" = some (V.s "white") ∧
          t'.stateGet = some (V.s "normal"))) :=
  ⟨rfl, rfl, rfl, rfl,
   ExText_state_background_invariant rgbAllWhite exTextSample
     (V.s "#262626") (V.s "white") rfl rfl rfl rfl⟩

end YtDlpTk
